import Mathlib

/-!
Shallow embedding of `sdks/go/pkg/beam/core/runtime/exec/input.go`:
the side-input materialization engine (ReusableInput, iterValue,
reIterValue, fixedValue, multiMapValue, and the input-maker registry).

Modelling conventions:
* Go panics are modelled as the `Except.error` branch of an `Except PanicMsg _`
  result; ordinary Go `error` return values are modelled by `Option GoErr` or
  `Except GoErr _` in the success branch.
* A `ReStream` is restartable: every `Open` yields the same fresh `Cursor`
  (modelling an independent read position over the same data).
* A `Cursor` (Go interface `Stream`) is a list of pending read outcomes —
  a record, or an error — followed, once the list is exhausted, by `io.EOF`
  forever; plus the result its `Close` will report.
* The external type-conversion routine `Convert` is a parameter `conv` of the
  functions that call it (the engine delegates conversion and performs none
  itself); `convId` below is a concrete instantiation used for evaluation.
* Specialized input makers installed in the registry are values of an
  abstract type parameter `R` produced by a `ReStream → R` constructor,
  mirroring `func(ReStream) ReusableInput`; the generic reflection path is
  modelled concretely by `iterValue`.
-/

/-- Element/slot types as classified by the shape analyzer (`reflect.Type`
restricted to the roles the engine distinguishes: `typex.EventTimeType`
versus ordinary value types). -/
inductive RType where
  | eventTimeType
  | intType
  | stringType
deriving DecidableEq, Repr

/-- Runtime values flowing through element fields and output slots. -/
inductive Val where
  | VInt (n : Int)
  | VStr (s : String)
  | VTime (t : Int)
deriving DecidableEq, Repr

/-- One element record (Go `FullValue`, restricted to the fields
`iterValue.invoke` reads): primary value `Elm`, secondary value `Elm2`,
and the event `Timestamp`. -/
structure FullValue where
  Elm : Val
  Elm2 : Val
  Timestamp : Int
deriving DecidableEq, Repr

/-- Go `error` values observed at this boundary: `io.EOF`, plain errors, and
`errors.Wrap msg cause`. -/
inductive GoErr where
  | eof
  | mk (msg : String)
  | wrapped (msg : String) (cause : GoErr)
deriving DecidableEq, Repr

/-- Go panics raised by this file. -/
inductive PanicMsg where
  | initNotCalled
  | illegalIterType
  | wantedOneKey
  | brokenStream (e : GoErr)
deriving DecidableEq, Repr

/-- An open read position (Go interface `Stream`): the pending read outcomes
in order, and the result `Close` will report (`none` = successful close). -/
structure Cursor where
  items : List (Except GoErr FullValue)
  closeErr : Option GoErr
deriving Repr

/-- `Stream.Read`: yield the next pending outcome and the advanced cursor;
an exhausted cursor reports `io.EOF` and stays exhausted. -/
def Cursor.Read (c : Cursor) : Except GoErr FullValue × Cursor :=
  match c.items with
  | [] => (Except.error GoErr.eof, c)
  | r :: rest => (r, { c with items := rest })

/-- A restartable element stream (Go interface `ReStream`): `Open` yields a
fresh cursor, or a `StreamOpenError`. Restartability: every `Open` of the
same `ReStream` value yields the same fresh `Cursor`. -/
structure ReStream where
  openResult : Except GoErr Cursor
deriving Repr

/-- Modelled from the spec: the external Type Conversion routine
`convert(value, target-type)`, out of scope for this core and assumed total;
instantiated as the identity (the case where the value already has the
declared type), used to evaluate concrete instances. -/
def convId : Val → RType → Val := fun v _ => v

/-- The slot-filling loop of `iterValue.invoke`: for each declared out-param
type, in order, write the EventTime slot from the timestamp, the first
non-time slot from `Elm` (the `isKey` flag starts true and is cleared there),
and every later non-time slot from `Elm2`; slots are written through the
caller-supplied out pointers `args`, positions beyond the declared types are
left untouched. -/
def setSlots (conv : Val → RType → Val) (types : List RType) (args : List Val)
    (elm elm2 : Val) (tstamp : Int) (isKey : Bool) : List Val :=
  match types, args with
  | [], rest => rest
  | _ :: _, [] => []
  | t :: trest, _ :: arest =>
    if t = RType.eventTimeType then
      Val.VTime tstamp :: setSlots conv trest arest elm elm2 tstamp isKey
    else if isKey then
      conv elm t :: setSlots conv trest arest elm elm2 tstamp false
    else
      conv elm2 t :: setSlots conv trest arest elm elm2 tstamp isKey

/-- The reflection-based sequential iterator (Go struct `iterValue`): the
declared out-param types, the stream it wraps, and the currently open cursor
if any. The synthesized closure `fn` is represented by `iterValue.invoke`
applied to this state. -/
structure iterValue where
  types : List RType
  s : ReStream
  cur : Option Cursor
deriving Repr

/-- `iterValue.Init`: open the stream; on success store the cursor, on
failure return the open error and leave the state unchanged. -/
def iterValue.Init (v : iterValue) : Except GoErr Unit × iterValue :=
  match v.s.openResult with
  | Except.error e => (Except.error e, v)
  | Except.ok c => (Except.ok (), { v with cur := some c })

/-- `iterValue.Value`: returns the stored closure `v.fn` unconditionally —
the body is a bare field read with no initialization check, so it never
panics; the closure is represented by the state it captures. -/
def iterValue.Value (v : iterValue) : Except PanicMsg iterValue :=
  Except.ok v

/-- `iterValue.Reset`: panic if `Init` was never called; otherwise close the
cursor — a close error is returned and the cursor field is kept, a
successful close clears it. -/
def iterValue.Reset (v : iterValue) : Except PanicMsg (Option GoErr × iterValue) :=
  match v.cur with
  | none => Except.error PanicMsg.initNotCalled
  | some c =>
    match c.closeErr with
    | some e => Except.ok (some e, v)
    | none => Except.ok (none, { v with cur := none })

/-- `iterValue.invoke`, the synthesized callable: panic if not initialized;
read one outcome from the cursor; `io.EOF` yields `false` with the out
arguments untouched; any other read error panics with the wrapped
`broken stream` error; a record fills the slots via `setSlots` and yields
`true`. Returns the (panic-or-`(bool, out-args)`) result and the state with
the advanced cursor. -/
def iterValue.invoke (conv : Val → RType → Val) (v : iterValue) (args : List Val) :
    Except PanicMsg (Bool × List Val) × iterValue :=
  match v.cur with
  | none => (Except.error PanicMsg.initNotCalled, v)
  | some c =>
    match c.Read with
    | (Except.error e, c2) =>
      if e = GoErr.eof then
        (Except.ok (false, args), { v with cur := some c2 })
      else
        (Except.error (PanicMsg.brokenStream (GoErr.wrapped "broken stream" e)),
         { v with cur := some c2 })
    | (Except.ok elm, c2) =>
      (Except.ok (true, setSlots conv v.types args elm.Elm elm.Elm2 elm.Timestamp true),
       { v with cur := some c2 })

/-- Drive the callable `n` times from a given state, collecting each call's
result and the final state (each call receives the caller's out arguments
`args` afresh, as the surrounding loop does). -/
def iterValue.run (conv : Val → RType → Val) (v : iterValue) (args : List Val) :
    Nat → List (Except PanicMsg (Bool × List Val)) × iterValue
  | 0 => ([], v)
  | n + 1 =>
    let p := iterValue.invoke conv v args
    let q := iterValue.run conv p.2 args n
    (p.1 :: q.1, q.2)

/-- A declared Go function type (`reflect.Type` of a function shape), as the
engine observes it: its identity (registry key) and what `funcx.UnfoldIter`
extracts from it — `none` when the type is not a legal iterator shape. -/
structure FnType where
  id : Nat
  unfoldIter : Option (List RType)
deriving DecidableEq, Repr

/-- The process-wide `inputs` registry: declared type to specialized input
maker (`func(ReStream) ReusableInput`, modelled as `ReStream → R` for an
abstract result type `R`). Modelled as an explicit value; the mutex only
serializes access and adds no other behavior. -/
def InputRegistry (R : Type) : Type := FnType → Option (ReStream → R)

/-- `RegisterInput`: install or overwrite the maker for exactly `t`
(a Go map assignment under the mutex); later registrations for the same
type shadow earlier ones. -/
def RegisterInput {R : Type} (reg : InputRegistry R) (t : FnType)
    (maker : ReStream → R) : InputRegistry R :=
  fun u => if u = t then some maker else reg u

/-- `IsInputRegistered`: whether a maker is installed for `t`. -/
def IsInputRegistered {R : Type} (reg : InputRegistry R) (t : FnType) : Bool :=
  (reg t).isSome

/-- Result of `makeIter`: either the specialized maker's product `maker s`,
or the generic reflection-based `iterValue`. -/
inductive MakeIterResult (R : Type) where
  | specialized (r : R)
  | generic (iv : iterValue)

/-- `makeIter`: look the declared type up in the registry and apply the
specialized maker when one is installed; otherwise unfold the iterator shape
(panicking on an illegal type) and build the reflection-based `iterValue`
with no cursor open yet. -/
def makeIter {R : Type} (reg : InputRegistry R) (t : FnType) (s : ReStream) :
    Except PanicMsg (MakeIterResult R) :=
  match reg t with
  | some maker => Except.ok (MakeIterResult.specialized (maker s))
  | none =>
    match t.unfoldIter with
    | none => Except.error PanicMsg.illegalIterType
    | some types =>
      Except.ok (MakeIterResult.generic { types := types, s := s, cur := none })

/-- The re-iterable factory (Go struct `reIterValue`): the element-iterator
type `t.Out(0)` the factory's result must have, and the underlying stream.
The synthesized closure `fn` is `reIterValue.invoke` applied to this state. -/
structure reIterValue where
  out0 : FnType
  s : ReStream
deriving Repr

/-- `reIterValue.Init`: no-op. -/
def reIterValue.Init (_ : reIterValue) : Except GoErr Unit :=
  Except.ok ()

/-- `reIterValue.Value`: returns the stored closure unconditionally. -/
def reIterValue.Value (v : reIterValue) : Except PanicMsg reIterValue :=
  Except.ok v

/-- `reIterValue.Reset`: no-op. -/
def reIterValue.Reset (_ : reIterValue) : Except GoErr Unit :=
  Except.ok ()

/-- `reIterValue.invoke`, the factory callable: build a brand-new iterator
over the same stream with `makeIter`, call its `Init` (discarding the Init
error), and return the new iterator's own callable (for the generic path,
the initialized `iterValue`; for a specialized maker, its abstract
product). -/
def reIterValue.invoke {R : Type} (reg : InputRegistry R) (v : reIterValue) :
    Except PanicMsg (MakeIterResult R) :=
  match makeIter reg v.out0 v.s with
  | Except.error p => Except.error p
  | Except.ok (MakeIterResult.specialized r) =>
    Except.ok (MakeIterResult.specialized r)
  | Except.ok (MakeIterResult.generic iter) =>
    Except.ok (MakeIterResult.generic (iterValue.Init iter).2)

/-- The trivial pass-through (Go struct `fixedValue`). -/
structure fixedValue where
  val : Val
deriving DecidableEq, Repr

/-- `fixedValue.Init`: no-op. -/
def fixedValue.Init (_ : fixedValue) : Except GoErr Unit :=
  Except.ok ()

/-- `fixedValue.Value`: the stored value unchanged. -/
def fixedValue.Value (v : fixedValue) : Val :=
  v.val

/-- `fixedValue.Reset`: no-op. -/
def fixedValue.Reset (_ : fixedValue) : Except GoErr Unit :=
  Except.ok ()

/-- The window identifier under which keyed state is scoped
(`typex.Window`, opaque to this engine). -/
structure Window where
  id : Nat
deriving DecidableEq, Repr

/-- The opaque state-reader handle (`StateReader`), passed through to the
adapter and never read directly by this engine. -/
structure StateReader where
  id : Nat
deriving DecidableEq, Repr

/-- The side-input adapter (`SideInputAdapter.NewKeyedIterable`): asked for
the element stream scoped to (window, key) via the state reader; returns the
stream together with an optional error (Go pair `(ReStream, error)`). The
`context.Context` argument carries no data this model observes. -/
structure SideInputAdapter where
  NewKeyedIterable : StateReader → Window → Val → ReStream × Option GoErr

/-- The keyed multimap accessor (Go struct `multiMapValue`): the iterator
type `t.Out(0)` of its result, the declared key type, and the adapter,
reader and window needed to build iterables per key. Its closure `fn` is
`multiMapValue.invoke` applied to this state. -/
structure multiMapValue where
  out0 : FnType
  keyType : RType
  adapter : SideInputAdapter
  reader : StateReader
  w : Window

/-- `multiMapValue.Init`: no-op. -/
def multiMapValue.Init (_ : multiMapValue) : Except GoErr Unit :=
  Except.ok ()

/-- `multiMapValue.Value`: returns the stored closure unconditionally. -/
def multiMapValue.Value (v : multiMapValue) : Except PanicMsg multiMapValue :=
  Except.ok v

/-- `multiMapValue.Reset`: no-op. -/
def multiMapValue.Reset (_ : multiMapValue) : Except GoErr Unit :=
  Except.ok ()

/-- `multiMapValue.invoke`, the lookup callable: panic unless exactly one
key argument was passed; convert the key to the declared key type; ask the
adapter for the (window, key)-scoped stream, discarding the error component
of its result; wrap that stream with `makeIter` and call `Init` on the new
iterator (its error also discarded), returning the iterator's callable. -/
def multiMapValue.invoke {R : Type} (reg : InputRegistry R)
    (conv : Val → RType → Val) (v : multiMapValue) (args : List Val) :
    Except PanicMsg (MakeIterResult R) :=
  match args with
  | [key] =>
    let k := conv key v.keyType
    let rs := (v.adapter.NewKeyedIterable v.reader v.w k).1
    match makeIter reg v.out0 rs with
    | Except.error p => Except.error p
    | Except.ok (MakeIterResult.specialized r) =>
      Except.ok (MakeIterResult.specialized r)
    | Except.ok (MakeIterResult.generic iter) =>
      Except.ok (MakeIterResult.generic (iterValue.Init iter).2)
  | _ => Except.error PanicMsg.wantedOneKey

/-! Helper lemmas shared by the claim theorems. -/

/-- One unfolding of the driver loop. -/
lemma run_succ (conv : Val → RType → Val) (v : iterValue) (args : List Val)
    (n : Nat) :
    iterValue.run conv v args (n + 1)
      = ((iterValue.invoke conv v args).1
           :: (iterValue.run conv (iterValue.invoke conv v args).2 args n).1,
         (iterValue.run conv (iterValue.invoke conv v args).2 args n).2) :=
  rfl

/-- A call with a record at the head of the cursor succeeds, fills the
slots, and consumes exactly that record. -/
lemma invoke_cons_ok (conv : Val → RType → Val) (tys : List RType)
    (s : ReStream) (fv : FullValue) (its : List (Except GoErr FullValue))
    (ce : Option GoErr) (args : List Val) :
    iterValue.invoke conv ⟨tys, s, some ⟨Except.ok fv :: its, ce⟩⟩ args
      = (Except.ok (true, setSlots conv tys args fv.Elm fv.Elm2 fv.Timestamp true),
         ⟨tys, s, some ⟨its, ce⟩⟩) :=
  rfl

/-- A call with an exhausted cursor reports `false` and changes nothing. -/
lemma invoke_exhausted (conv : Val → RType → Val) (tys : List RType)
    (s : ReStream) (ce : Option GoErr) (args : List Val) :
    iterValue.invoke conv ⟨tys, s, some ⟨[], ce⟩⟩ args
      = (Except.ok (false, args), ⟨tys, s, some ⟨[], ce⟩⟩) :=
  rfl

/-- Driving an initialized iterator over a cursor holding exactly `recs`
(and no errors) for `recs.length + 1` calls yields one successful, fully
mapped result per record, in order, followed by one `false` result, and
drains the cursor. -/
lemma run_drain (conv : Val → RType → Val) (tys : List RType) (s : ReStream)
    (ce : Option GoErr) (recs : List FullValue) (args : List Val) :
    iterValue.run conv ⟨tys, s, some ⟨recs.map Except.ok, ce⟩⟩ args (recs.length + 1)
      = ((recs.map fun fv =>
            Except.ok (true, setSlots conv tys args fv.Elm fv.Elm2 fv.Timestamp true))
          ++ [Except.ok (false, args)],
         ⟨tys, s, some ⟨[], ce⟩⟩) := by
  induction recs with
  | nil =>
    simp only [List.map_nil, List.length_nil]
    rw [run_succ, invoke_exhausted]
    simp [iterValue.run]
  | cons fv rest ih =>
    simp only [List.map_cons, List.length_cons]
    rw [run_succ, invoke_cons_ok, ih]
    simp

/-- After `k ≤ recs.length` calls, exactly the first `k` records have been
consumed from the cursor; the stream field is untouched. -/
lemma run_state (conv : Val → RType → Val) (tys : List RType) (s : ReStream)
    (ce : Option GoErr) (args : List Val) :
    ∀ (k : Nat) (recs : List FullValue), k ≤ recs.length →
    (iterValue.run conv ⟨tys, s, some ⟨recs.map Except.ok, ce⟩⟩ args k).2
      = ⟨tys, s, some ⟨(recs.drop k).map Except.ok, ce⟩⟩ := by
  intro k
  induction k with
  | zero =>
    intro recs _
    simp [iterValue.run]
  | succ n ih =>
    intro recs hk
    match recs with
    | [] => simp at hk
    | fv :: rest =>
      simp only [List.length_cons, Nat.succ_le_succ_iff] at hk
      simp [iterValue.run, iterValue.invoke, Cursor.Read, List.drop_succ_cons,
        ih rest hk]

/-- With the `isKey` flag already cleared, every non-time slot receives the
secondary value. -/
lemma setSlots_cleared_getElem (conv : Val → RType → Val) (tys : List RType)
    (args : List Val) (e1 e2 : Val) (tm : Int) :
    ∀ (i : Nat) (hi : i < tys.length), tys.length ≤ args.length →
    (setSlots conv tys args e1 e2 tm false)[i]? =
      some (if tys.getD i RType.eventTimeType = RType.eventTimeType then Val.VTime tm
            else conv e2 (tys.getD i RType.eventTimeType)) := by
  induction tys generalizing args with
  | nil =>
    intro i hi _
    simp at hi
  | cons t trest ih =>
    intro i hi hlen
    match args with
    | [] => simp at hlen
    | a :: arest =>
      simp only [List.length_cons, Nat.succ_le_succ_iff] at hlen
      match i with
      | 0 =>
        by_cases ht : t = RType.eventTimeType <;>
          simp [setSlots, ht]
      | Nat.succ j =>
        have hj : j < trest.length := Nat.lt_of_succ_lt_succ hi
        by_cases ht : t = RType.eventTimeType <;>
          simp [setSlots, ht, ih arest j hj hlen]

/-- Pointwise characterization of the slot-filling loop started with the
`isKey` flag set (as `iterValue.invoke` starts it): an EventTime slot
receives the timestamp; the first non-time slot (all slots before it are
EventTime slots) receives the converted primary value; every later non-time
slot receives the converted secondary value. -/
lemma setSlots_getElem (conv : Val → RType → Val) (tys : List RType)
    (args : List Val) (e1 e2 : Val) (tm : Int) :
    ∀ (i : Nat) (hi : i < tys.length), tys.length ≤ args.length →
    (setSlots conv tys args e1 e2 tm true)[i]? =
      some (if tys.getD i RType.eventTimeType = RType.eventTimeType then Val.VTime tm
            else if (tys.take i).all (fun u => decide (u = RType.eventTimeType))
            then conv e1 (tys.getD i RType.eventTimeType)
            else conv e2 (tys.getD i RType.eventTimeType)) := by
  induction tys generalizing args with
  | nil =>
    intro i hi _
    simp at hi
  | cons t trest ih =>
    intro i hi hlen
    match args with
    | [] => simp at hlen
    | a :: arest =>
      simp only [List.length_cons, Nat.succ_le_succ_iff] at hlen
      match i with
      | 0 =>
        by_cases ht : t = RType.eventTimeType <;>
          simp [setSlots, ht]
      | Nat.succ j =>
        have hj : j < trest.length := Nat.lt_of_succ_lt_succ hi
        by_cases ht : t = RType.eventTimeType
        · simp [setSlots, ht, ih arest j hj hlen, List.take_succ_cons]
        · simp [setSlots, ht, setSlots_cleared_getElem conv trest arest e1 e2 tm j hj hlen,
            List.take_succ_cons]

/-! Claim theorems. -/

/-- C1: for every Element Stream containing `N` records, the Sequential
Iterator's callable after `Init` returns success exactly `N` times (one
result per record, in order), followed by exactly one "no more elements"
(`false`) result; and after any `k ≤ N` calls exactly the first `k` records
have been consumed from the cursor — one record per call. -/
theorem iterValue_run_counts (conv : Val → RType → Val) (tys : List RType)
    (s : ReStream) (ce : Option GoErr) (recs : List FullValue)
    (args : List Val) (k : Nat)
    (hs : s.openResult = Except.ok ⟨recs.map Except.ok, ce⟩)
    (hk : k ≤ recs.length) :
    iterValue.Init ⟨tys, s, none⟩
      = (Except.ok (), ⟨tys, s, some ⟨recs.map Except.ok, ce⟩⟩) ∧
    (iterValue.run conv ⟨tys, s, some ⟨recs.map Except.ok, ce⟩⟩ args
        (recs.length + 1)).1
      = (recs.map fun fv =>
           Except.ok (true, setSlots conv tys args fv.Elm fv.Elm2 fv.Timestamp true))
        ++ [Except.ok (false, args)] ∧
    (iterValue.run conv ⟨tys, s, some ⟨recs.map Except.ok, ce⟩⟩ args k).2
      = ⟨tys, s, some ⟨(recs.drop k).map Except.ok, ce⟩⟩ := by
  refine ⟨?_, ?_, ?_⟩
  · simp [iterValue.Init, hs]
  · rw [run_drain]
  · exact run_state conv tys s ce args k recs hk

/-- Concrete two-record fixture used by witnesses. -/
def recsW : List FullValue :=
  [⟨Val.VInt 1, Val.VStr "a", 5⟩, ⟨Val.VInt 2, Val.VStr "b", 6⟩]

/-- Concrete stream over `recsW` whose cursor closes successfully. -/
def streamW : ReStream :=
  ⟨Except.ok ⟨recsW.map Except.ok, none⟩⟩

/-- Witness for C1: the two-record stream `streamW`, `k = 1`. -/
theorem iterValue_run_counts_witness :
    (streamW.openResult = Except.ok ⟨recsW.map Except.ok, none⟩ ∧
     1 ≤ recsW.length) ∧
    (iterValue.Init ⟨[RType.intType, RType.stringType], streamW, none⟩
       = (Except.ok (), ⟨[RType.intType, RType.stringType], streamW,
           some ⟨recsW.map Except.ok, none⟩⟩) ∧
     (iterValue.run convId ⟨[RType.intType, RType.stringType], streamW,
         some ⟨recsW.map Except.ok, none⟩⟩ [Val.VInt 0, Val.VInt 0]
         (recsW.length + 1)).1
       = (recsW.map fun fv =>
            Except.ok (true, setSlots convId [RType.intType, RType.stringType]
              [Val.VInt 0, Val.VInt 0] fv.Elm fv.Elm2 fv.Timestamp true))
         ++ [Except.ok (false, [Val.VInt 0, Val.VInt 0])] ∧
     (iterValue.run convId ⟨[RType.intType, RType.stringType], streamW,
         some ⟨recsW.map Except.ok, none⟩⟩ [Val.VInt 0, Val.VInt 0] 1).2
       = ⟨[RType.intType, RType.stringType], streamW,
           some ⟨(recsW.drop 1).map Except.ok, none⟩⟩) :=
  ⟨⟨rfl, by decide⟩,
   iterValue_run_counts convId [RType.intType, RType.stringType] streamW none
     recsW [Val.VInt 0, Val.VInt 0] 1 rfl (by decide)⟩

/-- C2: on a successful read the callable fills role slots left-to-right —
every EventTime slot receives the record's timestamp, the first non-time
slot receives the primary value converted to its declared type, every later
non-time slot receives the secondary value converted to its declared type;
in particular `[EventTime, Key, Value]` on `(primary 7, secondary "x",
timestamp tm)` yields `(tm, 7, "x")`, and `[Key]` alone yields just `7`. -/
theorem iterValue_invoke_field_mapping (conv : Val → RType → Val)
    (tys : List RType) (s s2 : ReStream) (c c2 : Cursor) (elm : FullValue)
    (args : List Val) (i : Nat) (tm : Int) (d0 d1 d2 : Val)
    (hread : Cursor.Read c = (Except.ok elm, c2))
    (hlen : tys.length ≤ args.length) (hi : i < tys.length) :
    iterValue.invoke conv ⟨tys, s, some c⟩ args
      = (Except.ok (true,
           setSlots conv tys args elm.Elm elm.Elm2 elm.Timestamp true),
         ⟨tys, s, some c2⟩) ∧
    (setSlots conv tys args elm.Elm elm.Elm2 elm.Timestamp true)[i]? =
      some (if tys.getD i RType.eventTimeType = RType.eventTimeType
            then Val.VTime elm.Timestamp
            else if (tys.take i).all (fun u => decide (u = RType.eventTimeType))
            then conv elm.Elm (tys.getD i RType.eventTimeType)
            else conv elm.Elm2 (tys.getD i RType.eventTimeType)) ∧
    iterValue.invoke convId
        ⟨[RType.eventTimeType, RType.intType, RType.stringType], s2,
          some ⟨[Except.ok ⟨Val.VInt 7, Val.VStr "x", tm⟩], none⟩⟩ [d0, d1, d2]
      = (Except.ok (true, [Val.VTime tm, Val.VInt 7, Val.VStr "x"]),
         ⟨[RType.eventTimeType, RType.intType, RType.stringType], s2,
           some ⟨[], none⟩⟩) ∧
    iterValue.invoke convId
        ⟨[RType.intType], s2,
          some ⟨[Except.ok ⟨Val.VInt 7, Val.VStr "x", tm⟩], none⟩⟩ [d0]
      = (Except.ok (true, [Val.VInt 7]), ⟨[RType.intType], s2, some ⟨[], none⟩⟩) := by
  refine ⟨?_, ?_, ?_, ?_⟩
  · simp [iterValue.invoke, hread]
  · exact setSlots_getElem conv tys args elm.Elm elm.Elm2 elm.Timestamp i hi hlen
  · rfl
  · rfl

/-- Witness for C2: slot `i = 1` of the `[EventTime, Key, Value]` shape. -/
theorem iterValue_invoke_field_mapping_witness :
    (Cursor.Read ⟨[Except.ok ⟨Val.VInt 7, Val.VStr "x", 9⟩], none⟩
       = (Except.ok ⟨Val.VInt 7, Val.VStr "x", 9⟩, ⟨[], none⟩) ∧
     ([RType.eventTimeType, RType.intType, RType.stringType].length
       ≤ [Val.VInt 0, Val.VInt 0, Val.VInt 0].length) ∧
     1 < [RType.eventTimeType, RType.intType, RType.stringType].length) ∧
    (iterValue.invoke convId
        ⟨[RType.eventTimeType, RType.intType, RType.stringType], streamW,
          some ⟨[Except.ok ⟨Val.VInt 7, Val.VStr "x", 9⟩], none⟩⟩
        [Val.VInt 0, Val.VInt 0, Val.VInt 0]
      = (Except.ok (true,
           setSlots convId [RType.eventTimeType, RType.intType, RType.stringType]
             [Val.VInt 0, Val.VInt 0, Val.VInt 0] (Val.VInt 7) (Val.VStr "x") 9 true),
         ⟨[RType.eventTimeType, RType.intType, RType.stringType], streamW,
           some ⟨[], none⟩⟩) ∧
     (setSlots convId [RType.eventTimeType, RType.intType, RType.stringType]
         [Val.VInt 0, Val.VInt 0, Val.VInt 0] (Val.VInt 7) (Val.VStr "x") 9 true)[1]? =
       some (if [RType.eventTimeType, RType.intType,
                 RType.stringType].getD 1 RType.eventTimeType = RType.eventTimeType
             then Val.VTime 9
             else if ([RType.eventTimeType, RType.intType, RType.stringType].take 1).all
                 (fun u => decide (u = RType.eventTimeType))
             then convId (Val.VInt 7)
               ([RType.eventTimeType, RType.intType, RType.stringType].getD 1
                 RType.eventTimeType)
             else convId (Val.VStr "x")
               ([RType.eventTimeType, RType.intType, RType.stringType].getD 1
                 RType.eventTimeType)) ∧
     iterValue.invoke convId
         ⟨[RType.eventTimeType, RType.intType, RType.stringType], streamW,
           some ⟨[Except.ok ⟨Val.VInt 7, Val.VStr "x", 9⟩], none⟩⟩
         [Val.VInt 0, Val.VInt 0, Val.VInt 0]
       = (Except.ok (true, [Val.VTime 9, Val.VInt 7, Val.VStr "x"]),
          ⟨[RType.eventTimeType, RType.intType, RType.stringType], streamW,
            some ⟨[], none⟩⟩) ∧
     iterValue.invoke convId
         ⟨[RType.intType], streamW,
           some ⟨[Except.ok ⟨Val.VInt 7, Val.VStr "x", 9⟩], none⟩⟩ [Val.VInt 0]
       = (Except.ok (true, [Val.VInt 7]),
          ⟨[RType.intType], streamW, some ⟨[], none⟩⟩)) :=
  ⟨⟨rfl, by decide, by decide⟩,
   iterValue_invoke_field_mapping convId
     [RType.eventTimeType, RType.intType, RType.stringType] streamW streamW
     ⟨[Except.ok ⟨Val.VInt 7, Val.VStr "x", 9⟩], none⟩ ⟨[], none⟩
     ⟨Val.VInt 7, Val.VStr "x", 9⟩ [Val.VInt 0, Val.VInt 0, Val.VInt 0] 1 9
     (Val.VInt 0) (Val.VInt 0) (Val.VInt 0) rfl (by decide) (by decide)⟩

/-- C3: a read failure other than end-of-stream makes the callable panic with
a `broken stream` error wrapping the underlying cursor error, and in that
case it never returns the "no more elements" (`false`) result. -/
theorem iterValue_invoke_broken_stream (conv : Val → RType → Val)
    (tys : List RType) (s : ReStream) (c c2 : Cursor) (e : GoErr)
    (args out : List Val)
    (hread : Cursor.Read c = (Except.error e, c2)) (hne : e ≠ GoErr.eof) :
    (iterValue.invoke conv ⟨tys, s, some c⟩ args).1
        = Except.error (PanicMsg.brokenStream (GoErr.wrapped "broken stream" e)) ∧
    (iterValue.invoke conv ⟨tys, s, some c⟩ args).1 ≠ Except.ok (false, out) := by
  have h1 : (iterValue.invoke conv ⟨tys, s, some c⟩ args).1
      = Except.error (PanicMsg.brokenStream (GoErr.wrapped "broken stream" e)) := by
    simp [iterValue.invoke, hread, hne]
  refine ⟨h1, ?_⟩
  rw [h1]
  simp

/-- Witness for C3: a cursor whose next read fails with a plain error. -/
theorem iterValue_invoke_broken_stream_witness :
    (Cursor.Read ⟨[Except.error (GoErr.mk "boom")], none⟩
       = (Except.error (GoErr.mk "boom"), ⟨[], none⟩) ∧
     GoErr.mk "boom" ≠ GoErr.eof) ∧
    ((iterValue.invoke convId
        ⟨[RType.intType], streamW, some ⟨[Except.error (GoErr.mk "boom")], none⟩⟩
        [Val.VInt 0]).1
       = Except.error (PanicMsg.brokenStream
           (GoErr.wrapped "broken stream" (GoErr.mk "boom"))) ∧
     (iterValue.invoke convId
        ⟨[RType.intType], streamW, some ⟨[Except.error (GoErr.mk "boom")], none⟩⟩
        [Val.VInt 0]).1 ≠ Except.ok (false, [Val.VInt 0])) :=
  ⟨⟨rfl, by decide⟩,
   iterValue_invoke_broken_stream convId [RType.intType] streamW
     ⟨[Except.error (GoErr.mk "boom")], none⟩ ⟨[], none⟩ (GoErr.mk "boom")
     [Val.VInt 0] [Val.VInt 0] rfl (by decide)⟩

/-- C4 counterexample: at a concrete uninitialized sequential iterator
(`cur = none`), `Value` ("fetch") returns the synthesized callable without
raising the lifecycle-misuse error — it silently succeeds, contradicting the
claim that both fetch and reset are fatal before `init`. -/
theorem iterValue_value_before_init_succeeds :
    (iterValue.mk [] ⟨Except.ok ⟨[], none⟩⟩ none).cur = none ∧
    iterValue.Value ⟨[], ⟨Except.ok ⟨[], none⟩⟩, none⟩
      = Except.ok ⟨[], ⟨Except.ok ⟨[], none⟩⟩, none⟩ :=
  ⟨rfl, rfl⟩

/-- C4 (amended): before `Init` (no open cursor), `Reset` panics with the
lifecycle-misuse error, and invoking the synthesized callable panics with
the same error; `Value` itself, however, returns the callable without any
check. -/
theorem iterValue_misuse_before_init (conv : Val → RType → Val)
    (v : iterValue) (args : List Val) (h : v.cur = none) :
    iterValue.Reset v = Except.error PanicMsg.initNotCalled ∧
    (iterValue.invoke conv v args).1 = Except.error PanicMsg.initNotCalled ∧
    iterValue.Value v = Except.ok v := by
  refine ⟨?_, ?_, rfl⟩
  · simp [iterValue.Reset, h]
  · simp [iterValue.invoke, h]

/-- Witness for the amended C4 at a concrete uninitialized iterator. -/
theorem iterValue_misuse_before_init_witness :
    (iterValue.mk [RType.intType] streamW none).cur = none ∧
    (iterValue.Reset ⟨[RType.intType], streamW, none⟩
       = Except.error PanicMsg.initNotCalled ∧
     (iterValue.invoke convId ⟨[RType.intType], streamW, none⟩ [Val.VInt 0]).1
       = Except.error PanicMsg.initNotCalled ∧
     iterValue.Value ⟨[RType.intType], streamW, none⟩
       = Except.ok ⟨[RType.intType], streamW, none⟩) :=
  ⟨rfl,
   iterValue_misuse_before_init convId ⟨[RType.intType], streamW, none⟩
     [Val.VInt 0] rfl⟩

/-- C8: when the cursor read signals end-of-stream, the callable returns the
`false` result with the caller's out arguments exactly as passed (no output
slot is written) and the iterator keeps only the advanced cursor. -/
theorem iterValue_invoke_eof_frame (conv : Val → RType → Val)
    (tys : List RType) (s : ReStream) (c : Cursor) (args : List Val)
    (h : (Cursor.Read c).1 = Except.error GoErr.eof) :
    iterValue.invoke conv ⟨tys, s, some c⟩ args
      = (Except.ok (false, args), ⟨tys, s, some (Cursor.Read c).2⟩) := by
  rcases hq : Cursor.Read c with ⟨r, c2⟩
  rw [hq] at h
  simp only at h
  subst h
  simp [iterValue.invoke, hq]

/-- Witness for C8: the exhausted cursor. -/
theorem iterValue_invoke_eof_frame_witness :
    (Cursor.Read ⟨[], none⟩).1 = Except.error GoErr.eof ∧
    iterValue.invoke convId ⟨[RType.intType], streamW, some ⟨[], none⟩⟩
        [Val.VInt 42]
      = (Except.ok (false, [Val.VInt 42]),
         ⟨[RType.intType], streamW, some (Cursor.Read ⟨[], none⟩).2⟩) :=
  ⟨rfl,
   iterValue_invoke_eof_frame convId [RType.intType] streamW ⟨[], none⟩
     [Val.VInt 42] rfl⟩

/-- C10: when closing the cursor fails, `Reset` returns the close error and
leaves the cursor field unchanged (the iterator stays initialized); only a
successful close clears the cursor. -/
theorem iterValue_reset_close_error (v : iterValue) (c : Cursor) (e : GoErr)
    (hc : v.cur = some c) (hce : c.closeErr = some e) :
    iterValue.Reset v = Except.ok (some e, v) ∧
    iterValue.Reset { v with cur := some { c with closeErr := none } }
      = Except.ok (none, { v with cur := none }) := by
  constructor
  · simp [iterValue.Reset, hc, hce]
  · simp [iterValue.Reset]

/-- Witness for C10: a cursor whose close fails. -/
theorem iterValue_reset_close_error_witness :
    (iterValue.mk [RType.intType] streamW
        (some ⟨[], some (GoErr.mk "close failed")⟩)).cur
      = some ⟨[], some (GoErr.mk "close failed")⟩ ∧
    (Cursor.mk [] (some (GoErr.mk "close failed"))).closeErr
      = some (GoErr.mk "close failed") ∧
    (iterValue.Reset ⟨[RType.intType], streamW,
        some ⟨[], some (GoErr.mk "close failed")⟩⟩
       = Except.ok (some (GoErr.mk "close failed"),
           ⟨[RType.intType], streamW, some ⟨[], some (GoErr.mk "close failed")⟩⟩) ∧
     iterValue.Reset ⟨[RType.intType], streamW, some ⟨[], none⟩⟩
       = Except.ok (none, ⟨[RType.intType], streamW, none⟩)) :=
  ⟨rfl, rfl,
   iterValue_reset_close_error
     ⟨[RType.intType], streamW, some ⟨[], some (GoErr.mk "close failed")⟩⟩
     ⟨[], some (GoErr.mk "close failed")⟩ (GoErr.mk "close failed") rfl rfl⟩

/-- C5: the multimap callable converts the key to the declared key type, asks
the adapter for the (window, key)-scoped stream, wraps it in a fresh
sequential iterator, initializes it, and returns its callable; driving that
iterator yields exactly the stream's stored records in order and then the
end-of-stream result — for an absent key (`recs = []`) the very first call
reports end-of-stream, never an error. -/
theorem multiMapValue_invoke_lookup {R : Type} (reg : InputRegistry R)
    (conv : Val → RType → Val) (out0 : FnType) (keyT : RType)
    (ad : SideInputAdapter) (rd : StateReader) (w : Window) (key : Val)
    (tys : List RType) (recs : List FullValue) (ce : Option GoErr)
    (args : List Val)
    (hreg : reg out0 = none) (hunf : out0.unfoldIter = some tys)
    (hopen : ((ad.NewKeyedIterable rd w (conv key keyT)).1).openResult
       = Except.ok ⟨recs.map Except.ok, ce⟩) :
    multiMapValue.invoke reg conv ⟨out0, keyT, ad, rd, w⟩ [key]
        = Except.ok (MakeIterResult.generic
            ⟨tys, (ad.NewKeyedIterable rd w (conv key keyT)).1,
              some ⟨recs.map Except.ok, ce⟩⟩) ∧
    (iterValue.run conv
        ⟨tys, (ad.NewKeyedIterable rd w (conv key keyT)).1,
          some ⟨recs.map Except.ok, ce⟩⟩ args (recs.length + 1)).1
      = (recs.map fun fv =>
           Except.ok (true, setSlots conv tys args fv.Elm fv.Elm2 fv.Timestamp true))
        ++ [Except.ok (false, args)] := by
  constructor
  · simp [multiMapValue.invoke, makeIter, hreg, hunf, iterValue.Init, hopen]
  · rw [run_drain]

/-- The empty registry used by witnesses (no specialized makers). -/
def regNone : InputRegistry Unit := fun _ => none

/-- A concrete iterator function type used by witnesses. -/
def fnW : FnType := ⟨0, some [RType.intType, RType.stringType]⟩

/-- A concrete adapter used by witnesses: every (window, key) pair is mapped
to `streamW`, together with an error that the engine is expected to drop. -/
def adW : SideInputAdapter :=
  ⟨fun _ _ _ => (streamW, some (GoErr.mk "adapter failed"))⟩

/-- Witness for C5 at a concrete key, window and adapter. -/
theorem multiMapValue_invoke_lookup_witness :
    (regNone fnW = none ∧
     fnW.unfoldIter = some [RType.intType, RType.stringType] ∧
     ((adW.NewKeyedIterable ⟨0⟩ ⟨0⟩ (convId (Val.VInt 3) RType.intType)).1).openResult
       = Except.ok ⟨recsW.map Except.ok, none⟩) ∧
    (multiMapValue.invoke regNone convId
        ⟨fnW, RType.intType, adW, ⟨0⟩, ⟨0⟩⟩ [Val.VInt 3]
       = Except.ok (MakeIterResult.generic
           ⟨[RType.intType, RType.stringType],
             (adW.NewKeyedIterable ⟨0⟩ ⟨0⟩ (convId (Val.VInt 3) RType.intType)).1,
             some ⟨recsW.map Except.ok, none⟩⟩) ∧
     (iterValue.run convId
         ⟨[RType.intType, RType.stringType],
           (adW.NewKeyedIterable ⟨0⟩ ⟨0⟩ (convId (Val.VInt 3) RType.intType)).1,
           some ⟨recsW.map Except.ok, none⟩⟩ [Val.VInt 0, Val.VInt 0]
         (recsW.length + 1)).1
       = (recsW.map fun fv =>
            Except.ok (true, setSlots convId [RType.intType, RType.stringType]
              [Val.VInt 0, Val.VInt 0] fv.Elm fv.Elm2 fv.Timestamp true))
         ++ [Except.ok (false, [Val.VInt 0, Val.VInt 0])]) :=
  ⟨⟨rfl, rfl, rfl⟩,
   multiMapValue_invoke_lookup regNone convId fnW RType.intType adW ⟨0⟩ ⟨0⟩
     (Val.VInt 3) [RType.intType, RType.stringType] recsW none
     [Val.VInt 0, Val.VInt 0] rfl rfl rfl⟩

/-- C6: each invocation of the re-iterable factory's callable builds a
brand-new sequential iterator over the same underlying stream, initializes
it, and returns its callable — the factory holds no mutable state, so a
first and a second invocation return the same fresh iterator; each such
fresh pass observes all `N` records in original order followed by the
end-of-stream result, and a pass's progress after `k` calls is confined to
its own cursor: the shared restartable stream is left unchanged, so the
second pass is unaffected by how far the first has advanced. -/
theorem reIterValue_invoke_fresh_passes {R : Type} (reg : InputRegistry R)
    (conv : Val → RType → Val) (out0 : FnType) (s : ReStream)
    (tys : List RType) (recs : List FullValue) (ce : Option GoErr)
    (args : List Val) (k : Nat)
    (hreg : reg out0 = none) (hunf : out0.unfoldIter = some tys)
    (hopen : s.openResult = Except.ok ⟨recs.map Except.ok, ce⟩)
    (hk : k ≤ recs.length) :
    reIterValue.invoke reg ⟨out0, s⟩
        = Except.ok (MakeIterResult.generic ⟨tys, s, some ⟨recs.map Except.ok, ce⟩⟩) ∧
    (iterValue.run conv ⟨tys, s, some ⟨recs.map Except.ok, ce⟩⟩ args
        (recs.length + 1)).1
      = (recs.map fun fv =>
           Except.ok (true, setSlots conv tys args fv.Elm fv.Elm2 fv.Timestamp true))
        ++ [Except.ok (false, args)] ∧
    (iterValue.run conv ⟨tys, s, some ⟨recs.map Except.ok, ce⟩⟩ args k).2.s = s := by
  refine ⟨?_, ?_, ?_⟩
  · simp [reIterValue.invoke, makeIter, hreg, hunf, iterValue.Init, hopen]
  · rw [run_drain]
  · rw [run_state conv tys s ce args k recs hk]

/-- Witness for C6: a three-record stream, first pass advanced `k = 2`. -/
theorem reIterValue_invoke_fresh_passes_witness :
    (regNone fnW = none ∧
     fnW.unfoldIter = some [RType.intType, RType.stringType] ∧
     (ReStream.mk (Except.ok ⟨([⟨Val.VInt 1, Val.VStr "a", 5⟩,
         ⟨Val.VInt 2, Val.VStr "b", 6⟩,
         ⟨Val.VInt 3, Val.VStr "c", 7⟩] : List FullValue).map Except.ok,
         none⟩)).openResult
       = Except.ok ⟨([⟨Val.VInt 1, Val.VStr "a", 5⟩,
           ⟨Val.VInt 2, Val.VStr "b", 6⟩,
           ⟨Val.VInt 3, Val.VStr "c", 7⟩] : List FullValue).map Except.ok, none⟩ ∧
     2 ≤ ([⟨Val.VInt 1, Val.VStr "a", 5⟩, ⟨Val.VInt 2, Val.VStr "b", 6⟩,
           ⟨Val.VInt 3, Val.VStr "c", 7⟩] : List FullValue).length) ∧
    (reIterValue.invoke regNone
        ⟨fnW, ⟨Except.ok ⟨([⟨Val.VInt 1, Val.VStr "a", 5⟩,
            ⟨Val.VInt 2, Val.VStr "b", 6⟩,
            ⟨Val.VInt 3, Val.VStr "c", 7⟩] : List FullValue).map Except.ok, none⟩⟩⟩
       = Except.ok (MakeIterResult.generic
           ⟨[RType.intType, RType.stringType],
             ⟨Except.ok ⟨([⟨Val.VInt 1, Val.VStr "a", 5⟩,
                 ⟨Val.VInt 2, Val.VStr "b", 6⟩,
                 ⟨Val.VInt 3, Val.VStr "c", 7⟩] : List FullValue).map Except.ok,
                 none⟩⟩,
             some ⟨([⟨Val.VInt 1, Val.VStr "a", 5⟩, ⟨Val.VInt 2, Val.VStr "b", 6⟩,
                 ⟨Val.VInt 3, Val.VStr "c", 7⟩] : List FullValue).map Except.ok,
                 none⟩⟩) ∧
     (iterValue.run convId
         ⟨[RType.intType, RType.stringType],
           ⟨Except.ok ⟨([⟨Val.VInt 1, Val.VStr "a", 5⟩,
               ⟨Val.VInt 2, Val.VStr "b", 6⟩,
               ⟨Val.VInt 3, Val.VStr "c", 7⟩] : List FullValue).map Except.ok,
               none⟩⟩,
           some ⟨([⟨Val.VInt 1, Val.VStr "a", 5⟩, ⟨Val.VInt 2, Val.VStr "b", 6⟩,
               ⟨Val.VInt 3, Val.VStr "c", 7⟩] : List FullValue).map Except.ok, none⟩⟩
         [Val.VInt 0, Val.VInt 0]
         (([⟨Val.VInt 1, Val.VStr "a", 5⟩, ⟨Val.VInt 2, Val.VStr "b", 6⟩,
            ⟨Val.VInt 3, Val.VStr "c", 7⟩] : List FullValue).length + 1)).1
       = (([⟨Val.VInt 1, Val.VStr "a", 5⟩, ⟨Val.VInt 2, Val.VStr "b", 6⟩,
            ⟨Val.VInt 3, Val.VStr "c", 7⟩] : List FullValue).map fun fv =>
            Except.ok (true, setSlots convId [RType.intType, RType.stringType]
              [Val.VInt 0, Val.VInt 0] fv.Elm fv.Elm2 fv.Timestamp true))
         ++ [Except.ok (false, [Val.VInt 0, Val.VInt 0])] ∧
     (iterValue.run convId
         ⟨[RType.intType, RType.stringType],
           ⟨Except.ok ⟨([⟨Val.VInt 1, Val.VStr "a", 5⟩,
               ⟨Val.VInt 2, Val.VStr "b", 6⟩,
               ⟨Val.VInt 3, Val.VStr "c", 7⟩] : List FullValue).map Except.ok,
               none⟩⟩,
           some ⟨([⟨Val.VInt 1, Val.VStr "a", 5⟩, ⟨Val.VInt 2, Val.VStr "b", 6⟩,
               ⟨Val.VInt 3, Val.VStr "c", 7⟩] : List FullValue).map Except.ok, none⟩⟩
         [Val.VInt 0, Val.VInt 0] 2).2.s
       = ⟨Except.ok ⟨([⟨Val.VInt 1, Val.VStr "a", 5⟩,
           ⟨Val.VInt 2, Val.VStr "b", 6⟩,
           ⟨Val.VInt 3, Val.VStr "c", 7⟩] : List FullValue).map Except.ok, none⟩⟩) :=
  ⟨⟨rfl, rfl, rfl, by decide⟩,
   reIterValue_invoke_fresh_passes regNone convId fnW
     ⟨Except.ok ⟨([⟨Val.VInt 1, Val.VStr "a", 5⟩, ⟨Val.VInt 2, Val.VStr "b", 6⟩,
         ⟨Val.VInt 3, Val.VStr "c", 7⟩] : List FullValue).map Except.ok, none⟩⟩
     [RType.intType, RType.stringType]
     [⟨Val.VInt 1, Val.VStr "a", 5⟩, ⟨Val.VInt 2, Val.VStr "b", 6⟩,
      ⟨Val.VInt 3, Val.VStr "c", 7⟩] none [Val.VInt 0, Val.VInt 0] 2
     rfl rfl rfl (by decide)⟩

/-- C7: registering a maker for the same declared type twice leaves the
later maker in the registry — the lookup of that exact type, including the
one `makeIter` performs before constructing an iterator, now yields the
second maker's product. -/
theorem RegisterInput_last_wins {R : Type} (reg : InputRegistry R)
    (t : FnType) (A B : ReStream → R) (s : ReStream) :
    RegisterInput (RegisterInput reg t A) t B t = some B ∧
    makeIter (RegisterInput (RegisterInput reg t A) t B) t s
      = Except.ok (MakeIterResult.specialized (B s)) := by
  constructor
  · simp [RegisterInput]
  · simp [makeIter, RegisterInput]

/-- C9: the multimap callable's result is insensitive to the error component
of the adapter's reply — an adapter failure is dropped and the engine
proceeds with whatever stream value came back, exactly as if the adapter had
reported no error. -/
theorem multiMapValue_invoke_discards_adapter_error {R : Type}
    (reg : InputRegistry R) (conv : Val → RType → Val) (out0 : FnType)
    (keyT : RType) (rd : StateReader) (w : Window) (args : List Val)
    (rsf : StateReader → Window → Val → ReStream)
    (ef : StateReader → Window → Val → Option GoErr) :
    multiMapValue.invoke reg conv
        ⟨out0, keyT, ⟨fun r wd k => (rsf r wd k, ef r wd k)⟩, rd, w⟩ args
      = multiMapValue.invoke reg conv
          ⟨out0, keyT, ⟨fun r wd k => (rsf r wd k, none)⟩, rd, w⟩ args := by
  cases args with
  | nil => rfl
  | cons a rest =>
    cases rest with
    | nil => rfl
    | cons b r2 => rfl
